import Mathlib

/-!
Verification development for the argument-validation and constant-binding
layer of python3-gnutls (src/gnutls/validators.py and src/gnutls/constants.py).

The python code is shallowly embedded: runtime values live in a small closed
universe `PyVal`, classes in `PyType`, and the type specifications a caller
may hand to the decorator factories in `TypeSpec`.  Validator resolution
(`Validator.get`), the resolved validators and their `check` methods
(`RValidator.check`), the wrapper construction (`callable_args`,
`function_args`, `method_args`) and the call-time wrapper body (`check_args`)
are translated directly from validators.py.  Raising an exception is modelled
as `Option.none`.
-/

/-- The python classes that occur in the embedded value universe.  `float` is
kept as a class (it appears in tuple-of-types specifications) even though the
value universe carries no float literals; no claim needs a float value. -/
inductive PyType where
  | int
  | bool
  | str
  | bytes
  | noneType
  | list
  | tuple
  | float

/-- A closed universe of python runtime values: the scalars and containers the
validated call sites traffic in. -/
inductive PyVal where
  | none
  | bool (b : Bool)
  | int (n : Int)
  | str (s : String)
  | bytes (s : String)
  | list (xs : List PyVal)
  | tuple (xs : List PyVal)

/-- Python `isinstance(value, cls)` on the embedded universe.  `bool` is a
subclass of `int` in python, so a bool value is an instance of `int`. -/
def isinstance : PyVal → PyType → Bool
  | .none, .noneType => true
  | .bool _, .bool => true
  | .bool _, .int => true
  | .int _, .int => true
  | .str _, .str => true
  | .bytes _, .bytes => true
  | .list _, .list => true
  | .tuple _, .tuple => true
  | _, _ => false

/-- A type specification as passed to the decorator factories: a plain class,
a python tuple of nested specifications, a constructed `one_of` instance, a
constructed `list_of` instance, the `ignore` sentinel, or a plain non-class
literal value (which no validator can handle).  Tuples of values are written
with `tup` over `lit` leaves, never as a `lit` of a tuple value. -/
inductive TypeSpec where
  | ty (t : PyType)
  | tup (specs : List TypeSpec)
  | oneOfW (vals : List PyVal)
  | listOfW (ts : List PyType)
  | ignoreS
  | lit (v : PyVal)

/-- Source `isclass(obj)`: true exactly for class objects.  In the embedding
only the `ty` leaves denote classes; wrapper instances, the `ignore` sentinel
instance, tuple instances and plain values are not classes. -/
def TypeSpec.isclass : TypeSpec → Bool
  | .ty _ => true
  | _ => false

/-- Extract the classes of a tuple specification.  `MultiTypeValidator` stores
the spec tuple itself as `self.type`; its guard `can_validate` ensures every
element is a class, so the extraction is lossless there. -/
def asTypes (specs : List TypeSpec) : List PyType :=
  specs.filterMap fun s => match s with
    | .ty t => some t
    | _ => Option.none

/-- A resolved validator, as built by `Validator.get`:
`ignoring` = IgnoringValidator, `typeV` = TypeValidator (single class),
`multiType` = MultiTypeValidator (tuple of classes), `oneOf` = OneOfValidator,
`listOf` = ListOfValidator (payload normalised to the class list; a single
class T and the tuple (T,) check identically), `complex` = ComplexValidator
over its resolved sub-validators. -/
inductive RValidator where
  | ignoring
  | typeV (t : PyType)
  | multiType (ts : List PyType)
  | oneOf (vals : List PyVal)
  | listOf (ts : List PyType)
  | complex (vs : List RValidator)

mutual

/-- Python `==` on the embedded universe: structural, except that `bool`
compares equal to the corresponding `int` (True == 1 in python), and
containers compare elementwise.  A list never equals a tuple. -/
def pyEq : PyVal → PyVal → Bool
  | .none, .none => true
  | .bool a, .bool b => a == b
  | .bool a, .int n => (if a then (1 : Int) else 0) == n
  | .int n, .bool a => n == (if a then (1 : Int) else 0)
  | .int n, .int m => n == m
  | .str a, .str b => a == b
  | .bytes a, .bytes b => a == b
  | .list xs, .list ys => pyEqList xs ys
  | .tuple xs, .tuple ys => pyEqList xs ys
  | _, _ => false

/-- Elementwise python equality of two value lists (helper for `pyEq`). -/
def pyEqList : List PyVal → List PyVal → Bool
  | [], [] => true
  | x :: xs, y :: ys => pyEq x y && pyEqList xs ys
  | _, _ => false

end

mutual

/-- Source `Validator.get`: scan the registered validators in registration
order (Ignoring, Type, MultiType, OneOf, ListOf, Complex) and return the first
whose `can_validate` accepts the specification, constructed on it; `None` when
no validator accepts.  The scan collapses per specification shape: the
`ignore` sentinel only matches IgnoringValidator; a class only matches
TypeValidator; a tuple matches MultiTypeValidator when every element is a
class (tried first), else ComplexValidator when every element itself resolves
recursively; `one_of` and `list_of` instances match their validators; a plain
literal matches nothing. -/
def Validator.get : TypeSpec → Option RValidator
  | .ignoreS => some .ignoring
  | .ty t => some (.typeV t)
  | .tup specs =>
      if specs.all TypeSpec.isclass then
        some (.multiType (asTypes specs))
      else
        match getAll specs with
        | some vs => some (.complex vs)
        | Option.none => Option.none
  | .oneOfW vals => some (.oneOf vals)
  | .listOfW ts => some (.listOf ts)
  | .lit _ => Option.none

/-- Resolve a list of specifications left to right, failing at the first one
no validator accepts.  This is both the recursion inside
`ComplexValidator.can_validate` / `__init__` and the resolution loop of
`_callable_args`. -/
def getAll : List TypeSpec → Option (List RValidator)
  | [] => some []
  | s :: rest =>
      match Validator.get s, getAll rest with
      | some v, some vs => some (v :: vs)
      | _, _ => Option.none

end

mutual

/-- The `check` method of each resolved validator, from validators.py:
IgnoringValidator always passes; TypeValidator is `isinstance(value, T)`;
MultiTypeValidator is `isinstance(value, (T1, ..., Tn))`; OneOfValidator is
`value in literals` under python equality; ListOfValidator requires the value
to be a tuple or a list whose every element is an instance of the wrapped
class(es); ComplexValidator passes when any sub-validator passes
(`bool(sum(...))`). -/
def RValidator.check : RValidator → PyVal → Bool
  | .ignoring, _ => true
  | .typeV t, v => isinstance v t
  | .multiType ts, v => ts.any fun t => isinstance v t
  | .oneOf vals, v => vals.any fun e => pyEq v e
  | .listOf ts, v =>
      match v with
      | .list xs => xs.all fun x => ts.any fun t => isinstance x t
      | .tuple xs => xs.all fun x => ts.any fun t => isinstance x t
      | _ => false
  | .complex vs, v => checkAny vs v

/-- Disjunction of the checks of a list of validators (the
`ComplexValidator.check` sum). -/
def checkAny : List RValidator → PyVal → Bool
  | [], _ => false
  | w :: ws, v => w.check v || checkAny ws v

end

/-- Source `one_of.__init__`: raises ValueError when given fewer than two
alternatives, otherwise stores the alternatives and yields the `one_of`
specification instance. -/
def one_of_init (args : List PyVal) : Option TypeSpec :=
  if args.length < 2 then Option.none else some (.oneOfW args)

/-- Source `list_of.__init__`: raises TypeError when any argument is not a
class, otherwise stores the class (a single one) or the class tuple and yields
the `list_of` specification instance.  The single-class and class-tuple
payloads check identically, so both are normalised to the class list. -/
def list_of_init (args : List TypeSpec) : Option TypeSpec :=
  if args.all TypeSpec.isclass then some (.listOfW (asTypes args)) else Option.none

/-- Source `ComplexValidator.__init__` applied directly to a tuple
specification: resolve every element (guaranteed by its `can_validate`) and
keep the sub-validator list. -/
def ComplexValidator.build (specs : List TypeSpec) : Option RValidator :=
  (getAll specs).map RValidator.complex

/-- The state a decorator factory call leaves behind: the starting argument
position (0 for functions, 1 for methods) and the validators resolved from
the specification list, in order. -/
structure Decorated where
  start : Nat
  validators : List RValidator

/-- Source `_callable_args`: resolve every specification at decoration time,
raising TypeError (modelled as `Option.none`) at the first specification no
registered validator accepts, before any wrapper exists. -/
def callable_args (args : List TypeSpec) (start : Nat) : Option Decorated :=
  (getAll args).map fun vs => { start := start, validators := vs }

/-- Source `method_args`: decoration for methods, skipping the receiver. -/
def method_args (args : List TypeSpec) : Option Decorated :=
  callable_args args 1

/-- Source `function_args`: decoration for plain functions. -/
def function_args (args : List TypeSpec) : Option Decorated :=
  callable_args args 0

/-- The check loop inside the wrapper `check_args`.  In the source, `pos` is
initialised to `start` and the line advancing it (`pos += 1`) is commented
out, so every iteration indexes `func_args[pos]` with `pos = start`; the
result of each check is computed and discarded (the raise is commented out;
the auxiliary bytes/str branch executes `pass` on both paths and is omitted
as unobservable).  `Option.none` models the IndexError raised when position
`start` does not exist; the returned list records the check outcomes in
order, which is what the loop computes before dropping them. -/
def runChecks (start : Nat) : List RValidator → List PyVal → Option (List Bool)
  | [], _ => some []
  | v :: vs, func_args =>
      match func_args[start]? with
      | some x => (runChecks start vs func_args).map fun bs => v.check x :: bs
      | Option.none => Option.none

/-- Source `check_args`, the wrapper body: run the check loop (whose outcomes
are discarded) and then unconditionally delegate to the wrapped callable with
the original arguments; the callable is reached only when the loop raised no
IndexError. -/
def check_args (start : Nat) (validators : List RValidator)
    (func : List PyVal → PyVal) (func_args : List PyVal) : Option PyVal :=
  (runChecks start validators func_args).map fun _ => func func_args

/-- Whether the first char list is a leading segment of the second. -/
def leadsWith : List Char → List Char → Bool
  | [], _ => true
  | _ :: _, [] => false
  | a :: as, b :: bs => a == b && leadsWith as bs

/-- Whether the first char list occurs contiguously inside the second. -/
def containsSeq (needle : List Char) : List Char → Bool
  | [] => needle.isEmpty
  | c :: rest => leadsWith needle (c :: rest) || containsSeq needle rest

/-- Python `needle in hay` on strings. -/
def hasSub (hay needle : String) : Bool :=
  containsSeq needle.toList hay.toList

mutual

/-- Python `str(value)` on the embedded universe: numbers and None render as
their literal text, a str renders as its bare characters (no quotes), bytes
and containers fall back to `repr` rendering. -/
def pyStr : PyVal → String
  | .str s => s
  | v => pyRepr v

/-- Python `repr(value)`: like `str` except that a str is surrounded by
quote characters (written here with the \x27 escape).  Container elements are
rendered with `repr`, as python does. -/
def pyRepr : PyVal → String
  | .none => "None"
  | .bool b => if b then "True" else "False"
  | .int n => toString n
  | .str s => "\x27" ++ s ++ "\x27"
  | .bytes s => "b\x27" ++ s ++ "\x27"
  | .list xs => "[" ++ pyReprJoin xs ++ "]"
  | .tuple xs => "(" ++ pyReprJoin xs ++ ")"

/-- Comma-joined `repr` rendering of container elements. -/
def pyReprJoin : List PyVal → String
  | [] => ""
  | [x] => pyRepr x
  | x :: y :: rest => pyRepr x ++ ", " ++ pyReprJoin (y :: rest)

end

/-- One declared parameter of a python function: its name and its default
value, `Option.none` when the parameter has no default. -/
structure Param where
  pname : String
  default : Option PyVal

/-- The introspectable face of a python function that `preserve_signature`
reads and reproduces: `__name__`, `__doc__` and the parameter list with
defaults (the default-value signature). -/
structure PyFunc where
  fname : String
  doc : Option String
  params : List Param

/-- `str(parameter.default)` as `preserve_signature` computes it: a parameter
without a default carries the `inspect` empty marker, whose str rendering
contains the word empty (the marker text is reproduced without its quote
characters); otherwise the str rendering of the default value. -/
def strOfDefaultField : Option PyVal → String
  | Option.none => "<class inspect._empty>"
  | some v => pyStr v

/-- One signature entry as `preserve_signature` renders it into the generated
source text: the bare parameter name when the str of the default contains the
substring empty, else `name=` followed by the str of the default. -/
def renderParamEntry (p : Param) : String :=
  if hasSub (strOfDefaultField p.default) "empty" then p.pname
  else p.pname ++ "=" ++ strOfDefaultField p.default

/-- The result of the python interpreter evaluating a rendered default
expression when the generated wrapper source is executed: the str rendering of
an int, bool or None round-trips to the same value; the bare (quoteless) text
of a str or bytes default is an undefined identifier, so the exec raises
NameError (`Option.none`); bytes and container renderings keep their quote
characters and round-trip. -/
def evalRendered : PyVal → Option PyVal
  | .str _ => Option.none
  | v => some v

/-- What the exec of the generated wrapper definition leaves as one parameter
of the new wrapper: a bare rendered entry yields a parameter without default;
a `name=text` entry yields the parameter with the evaluated default, or fails
the whole decoration when the text does not evaluate. -/
def execParam (p : Param) : Option Param :=
  if hasSub (strOfDefaultField p.default) "empty" then
    some { pname := p.pname, default := Option.none }
  else
    match p.default with
    | some v => (evalRendered v).map fun w => { pname := p.pname, default := some w }
    | Option.none => some { pname := p.pname, default := Option.none }

/-- Execute every rendered parameter entry, failing at the first NameError. -/
def execParams : List Param → Option (List Param)
  | [] => some []
  | p :: ps =>
      match execParam p, execParams ps with
      | some q, some qs => some (q :: qs)
      | _, _ => Option.none

/-- Whether an executed parameter list is a syntactically valid python
signature: once a defaulted parameter appears, every later parameter must
also carry a default, otherwise the exec of the generated def raises
SyntaxError (non-default argument follows default argument). -/
def validSignature : List Param → Bool
  | [] => true
  | p :: ps =>
      match p.default with
      | Option.none => validSignature ps
      | some _ => ps.all fun q => q.default.isSome

/-- Source `preserve_signature` composed with its generated exec: the new
wrapper carries the original __name__ and __doc__ (copied explicitly) and the
parameter list produced by executing the rendered signature text.
`Option.none` models the exec itself raising (NameError on a default whose
rendered text is not evaluable, or SyntaxError on a rendered signature where
a dropped default leaves a bare name after a defaulted one). -/
def preserve_signature (f : PyFunc) : Option PyFunc :=
  (execParams f.params).bind fun qs =>
    if validSignature qs then
      some { fname := f.fname, doc := f.doc, params := qs }
    else Option.none

/-- Python binding of a positional call against a parameter list, once the
supplied arguments are exhausted: every remaining parameter must have a
default (else TypeError for a missing required argument), and a surplus
argument with no parameter left is a TypeError as well. -/
def bindEach : List Param → List PyVal → Option (List PyVal)
  | [], [] => some []
  | [], _ :: _ => Option.none
  | p :: ps, [] =>
      match p.default with
      | some d => (bindEach ps []).map fun rest => d :: rest
      | Option.none => Option.none
  | _ :: ps, a :: rest => (bindEach ps rest).map fun bs => a :: bs

/-- Python binding of a positional-only call against the signature of the
generated shim: each supplied argument fills the parameter at its position,
remaining parameters take their defaults, and a missing required argument or
a surplus argument raises TypeError (`Option.none`).  The result is the bound
argument tuple the shim body passes on to `check_args`. -/
def bindCall (params : List Param) (args : List PyVal) : Option (List PyVal) :=
  bindEach params args

/-- A call to the function that decoration actually returns: the
preserve_signature shim first binds the supplied positional arguments against
the original signature (defaults filled in), then its body invokes the
`check_args` wrapper with the full bound argument tuple, which runs the check
loop and delegates to the original callable.  `Option.none` covers the exec
failing at decoration, TypeError at binding, and IndexError in the check
loop. -/
def callDecorated (f : PyFunc) (d : Decorated) (impl : List PyVal → PyVal)
    (args : List PyVal) : Option PyVal :=
  (preserve_signature f).bind fun shim =>
    (bindCall shim.params args).bind fun bound =>
      check_args d.start d.validators impl bound

/-- Source `__name_map__` of constants.py: logical constant names whose native
symbol differs. -/
def name_map : List (String × String) :=
  [("PROTO_TLS1_2", "TLS1_2"), ("PROTO_TLS1_1", "TLS1_1"),
   ("PROTO_TLS1_0", "TLS1_0"), ("PROTO_SSL3", "SSL3"),
   ("CRED_CERTIFICATE", "CRD_CERTIFICATE"), ("CRED_ANON", "CRD_ANON")]

/-- Modelled from the spec: the native symbol table `gnutls.library.constants`
is code of this repository that is not under src (constants.py imports it).
The spec (sections 4.3 and 8) requires each declared logical name to resolve
to a native integer and the two credential constants to resolve to distinct
integers; the integer values follow the GnuTLS library enumeration that the
generated module mirrors.  An absent symbol is `Option.none` (fatal at
process start). -/
def libraryConstants : String → Option Int
  | "GNUTLS_CRD_CERTIFICATE" => some 1
  | "GNUTLS_CRD_ANON" => some 3
  | "GNUTLS_X509_FMT_DER" => some 0
  | "GNUTLS_X509_FMT_PEM" => some 1
  | "GNUTLS_CERT_REQUEST" => some 1
  | "GNUTLS_CERT_REQUIRE" => some 2
  | "GNUTLS_SHUT_RDWR" => some 0
  | "GNUTLS_SHUT_WR" => some 1
  | _ => Option.none

/-- The native symbol name `GNUTLSConstant.__new__` looks up: the prefixed
override-table translation of the logical name, or the prefixed logical name
itself when no override exists. -/
def gnutlsName (name : String) : String :=
  "GNUTLS_" ++ ((name_map.lookup name).getD name)

/-- A resolved constant: its integer value (GNUTLSConstant subclasses int)
and the logical name stored on the instance for display. -/
structure GNUTLSConstant where
  val : Int
  name : String

/-- Source `GNUTLSConstant.__new__`: resolve the logical name through the
override table, look the prefixed symbol up in the native module (an AttributeError
for a missing symbol is `Option.none`), and store the logical name on the
instance. -/
def GNUTLSConstant.make (name : String) : Option GNUTLSConstant :=
  (libraryConstants (gnutlsName name)).map fun v => { val := v, name := name }

/-- Source `GNUTLSConstant.__repr__`: the stored logical name. -/
def GNUTLSConstant.reprStr (c : GNUTLSConstant) : String :=
  c.name

/-- Spec-side notion for claim C5 (the word sequence in the spec): the python
sequence types present in the embedded universe; str, bytes, list and tuple
are all python sequence types. -/
def isPySequence : PyVal → Bool
  | .list _ => true
  | .tuple _ => true
  | .str _ => true
  | .bytes _ => true
  | _ => false

/-- Spec-side notion for claim C5: the elements obtained by iterating a python
sequence value; iterating a str yields its characters as one-char strings,
iterating bytes yields ints. -/
def pySeqElems : PyVal → List PyVal
  | .list xs => xs
  | .tuple xs => xs
  | .str s => s.toList.map fun c => PyVal.str (String.mk [c])
  | .bytes s => s.toList.map fun c => PyVal.int c.toNat
  | _ => []

/-- The container test `isinstance(value, (tuple, list))` that ListOfValidator
actually performs. -/
def isListOrTuple : PyVal → Bool
  | .list _ => true
  | .tuple _ => true
  | _ => false

/-- The elements of a tuple or list value (empty for every other value). -/
def seqItems : PyVal → List PyVal
  | .list xs => xs
  | .tuple xs => xs
  | _ => []

/-- Resolving a cons cell succeeds exactly when the head resolves and the tail
resolves. -/
theorem getAll_cons_isSome (s : TypeSpec) (rest : List TypeSpec) :
    (getAll (s :: rest)).isSome = ((Validator.get s).isSome && (getAll rest).isSome) := by
  cases hs : Validator.get s <;> cases hr : getAll rest <;> simp [getAll, hs, hr]

/-- Resolving a specification list succeeds exactly when every specification
resolves. -/
theorem getAll_isSome_iff (l : List TypeSpec) :
    (getAll l).isSome = true ↔ ∀ s ∈ l, (Validator.get s).isSome = true := by
  induction l with
  | nil => simp [getAll]
  | cons s rest ih => simp [getAll_cons_isSome, ih]

/-- Decoration succeeds exactly when the resolution loop succeeds. -/
theorem callable_args_isSome (args : List TypeSpec) (st : Nat) :
    (callable_args args st).isSome = (getAll args).isSome := by
  cases h : getAll args <;> simp [callable_args, h]

/-- Class extraction undoes wrapping a class list into specifications. -/
theorem asTypes_map_ty (ts : List PyType) : asTypes (ts.map TypeSpec.ty) = ts := by
  induction ts with
  | nil => rfl
  | cons t rest ih => simpa [asTypes, List.filterMap_cons] using ih

/-- A tuple specification built from classes passes the all-classes guard. -/
theorem all_isclass_map_ty (ts : List PyType) :
    (ts.map TypeSpec.ty).all TypeSpec.isclass = true := by
  induction ts with
  | nil => rfl
  | cons t rest ih => simp [List.all_cons, TypeSpec.isclass, ih]

/-- Resolving a list of class specifications yields the single-type validators
in order. -/
theorem getAll_map_ty (ts : List PyType) :
    getAll (ts.map TypeSpec.ty) = some (ts.map RValidator.typeV) := by
  induction ts with
  | nil => rfl
  | cons t rest ih => simp [getAll, Validator.get, ih]

/-- The disjunction of single-type checks is the any-instance test. -/
theorem checkAny_map_typeV (ts : List PyType) (v : PyVal) :
    checkAny (ts.map RValidator.typeV) v = ts.any fun t => isinstance v t := by
  induction ts with
  | nil => rfl
  | cons t rest ih => simp [checkAny, RValidator.check, List.any_cons, ih]

/-- C2 evaluation at the failing input (the claim says validator i is checked
against the argument at position start + i; in the code the position is never
advanced, `pos += 1` is commented out, so every validator is checked against
the argument at position start).  With function_args(int, str) and the call
arguments (1, "ok"), the str validator is checked against the int 1 and its
check comes out false, where the claim predicts it is checked against "ok"
with outcome true; and with two validators but a single supplied argument no
IndexError occurs, where the claim predicts an access to position 1. -/
theorem C2_all_checks_hit_position_start :
    runChecks 0 [RValidator.typeV PyType.int, RValidator.typeV PyType.str]
      [PyVal.int 1, PyVal.str "ok"] = some [true, false] ∧
    runChecks 0 [RValidator.typeV PyType.int, RValidator.typeV PyType.int]
      [PyVal.int 1] = some [true, true] :=
  ⟨rfl, rfl⟩

/-- C3: decoration fails exactly when some supplied specification resolves to
no registered validator, and then it fails at decoration time, before any
wrapper exists (no `Decorated` value is produced, so no call can happen); a
plain integer literal is such an unsupported specification.  When every
specification resolves, decoration succeeds. -/
theorem C3_decoration_fails_fast :
    (∀ args : List TypeSpec,
        ((function_args args).isSome = true ↔
          ∀ s ∈ args, (Validator.get s).isSome = true) ∧
        ((method_args args).isSome = true ↔
          ∀ s ∈ args, (Validator.get s).isSome = true)) ∧
    Validator.get (TypeSpec.lit (PyVal.int 3)) = Option.none := by
  refine ⟨fun args => ⟨?_, ?_⟩, rfl⟩
  · rw [show function_args args = callable_args args 0 from rfl,
        callable_args_isSome]
    exact getAll_isSome_iff args
  · rw [show method_args args = callable_args args 1 from rfl,
        callable_args_isSome]
    exact getAll_isSome_iff args

/-- C4: a tuple whose elements are all plain classes resolves to
MultiTypeValidator (not ComplexValidator), ComplexValidator built directly on
the same tuple holds the single-type validators of the same classes, and the
two checks agree on every value. -/
theorem C4_plain_tuple_resolution_and_equivalence (ts : List PyType) :
    Validator.get (TypeSpec.tup (ts.map TypeSpec.ty)) =
      some (RValidator.multiType ts) ∧
    ComplexValidator.build (ts.map TypeSpec.ty) =
      some (RValidator.complex (ts.map RValidator.typeV)) ∧
    ∀ v : PyVal, (RValidator.multiType ts).check v =
      (RValidator.complex (ts.map RValidator.typeV)).check v := by
  refine ⟨?_, ?_, ?_⟩
  · simp [Validator.get, all_isclass_map_ty, asTypes_map_ty]
  · simp [ComplexValidator.build, getAll_map_ty]
  · intro v
    simp [RValidator.check, checkAny_map_typeV]

/-- C5 counterexample: the claim reads check(value) as true exactly when the
value is a sequence whose every element is an instance of the wrapped type;
a str is a python sequence and every element of "ab" is a str instance, yet
ListOfValidator for str rejects "ab" (the code tests
`isinstance(value, (tuple, list))`, not sequence-ness). -/
theorem C5_sequence_reading_fails_on_str :
    ¬ (((RValidator.listOf [PyType.str]).check (PyVal.str "ab") = true) ↔
       (isPySequence (PyVal.str "ab") = true ∧
        (pySeqElems (PyVal.str "ab")).all (fun x => isinstance x PyType.str) = true)) := by
  decide

/-- C5 amended: for every list_of specification wrapping type(s) T, the
resolved validator accepts exactly the tuple and list values whose every
element is an instance of some wrapped type (other sequence values such as
str are rejected); in particular list_of(int) is built from the class int,
resolves to ListOfValidator, accepts [1, 2, 3], rejects [1, "x"] and rejects
the non-sequence 5. -/
theorem C5_list_of_accepts_tuple_or_list_of_instances :
    (∀ (ts : List PyType) (v : PyVal),
        (RValidator.listOf ts).check v =
          (isListOrTuple v &&
            (seqItems v).all fun x => ts.any fun t => isinstance x t)) ∧
    list_of_init [TypeSpec.ty PyType.int] = some (TypeSpec.listOfW [PyType.int]) ∧
    Validator.get (TypeSpec.listOfW [PyType.int]) =
      some (RValidator.listOf [PyType.int]) ∧
    (RValidator.listOf [PyType.int]).check
      (PyVal.list [PyVal.int 1, PyVal.int 2, PyVal.int 3]) = true ∧
    (RValidator.listOf [PyType.int]).check
      (PyVal.list [PyVal.int 1, PyVal.str "x"]) = false ∧
    (RValidator.listOf [PyType.int]).check (PyVal.int 5) = false := by
  refine ⟨fun ts v => ?_, rfl, rfl, rfl, rfl, rfl⟩
  cases v <;> rfl

/-- C6: building one_of with fewer than two alternatives raises (ValueError)
and with two or more succeeds; building list_of raises (TypeError) exactly
when some argument is not a class, and with all-class arguments succeeds. -/
theorem C6_wrapper_construction_errors :
    (∀ args : List PyVal, (one_of_init args).isSome = true ↔ 2 ≤ args.length) ∧
    (∀ args : List TypeSpec,
        (list_of_init args).isSome = true ↔ args.all TypeSpec.isclass = true) := by
  constructor
  · intro args
    by_cases h : args.length < 2
    · simp [one_of_init, h]
    · simp [one_of_init, h]
      omega
  · intro args
    by_cases h : args.all TypeSpec.isclass <;> simp [list_of_init, h]

/-- C7 evaluation at the failing input: a function whose parameter has the
string default "empty" (its str rendering contains the substring the code
uses to recognise the missing-default marker) comes out of preserve_signature
with the default dropped from the wrapper signature, contradicting the claim
that the wrapper keeps the default-value signature of every function.  The
rendered entry is the bare parameter name; name and doc are kept. -/
theorem C7_preserve_signature_drops_str_empty_default :
    renderParamEntry { pname := "mode", default := some (PyVal.str "empty") } =
      "mode" ∧
    preserve_signature
        { fname := "connect", doc := some "docstring",
          params := [{ pname := "mode", default := some (PyVal.str "empty") }] } =
      some { fname := "connect", doc := some "docstring",
             params := [{ pname := "mode", default := Option.none }] } :=
  ⟨rfl, rfl⟩

/-- C8: the two credential constants resolve through the override table to the
native CRD symbols, carry distinct integer values, and display their logical
names, not the native symbol names. -/
theorem C8_credential_constants_distinct_and_named :
    gnutlsName "CRED_CERTIFICATE" = "GNUTLS_CRD_CERTIFICATE" ∧
    gnutlsName "CRED_ANON" = "GNUTLS_CRD_ANON" ∧
    GNUTLSConstant.make "CRED_CERTIFICATE" =
      some { val := 1, name := "CRED_CERTIFICATE" } ∧
    GNUTLSConstant.make "CRED_ANON" = some { val := 3, name := "CRED_ANON" } ∧
    (GNUTLSConstant.make "CRED_CERTIFICATE").map GNUTLSConstant.val ≠
      (GNUTLSConstant.make "CRED_ANON").map GNUTLSConstant.val ∧
    GNUTLSConstant.reprStr { val := 1, name := "CRED_CERTIFICATE" } =
      "CRED_CERTIFICATE" ∧
    GNUTLSConstant.reprStr { val := 3, name := "CRED_ANON" } = "CRED_ANON" ∧
    "CRED_ANON" ≠ "CRD_ANON" := by
  refine ⟨rfl, rfl, rfl, rfl, by decide, rfl, rfl, by decide⟩

/-- The check-loop body alone, handed an argument tuple with at most `start`
entries and at least one validator, fails the indexing of position `start`
(IndexError) and never reaches the wrapped callable. -/
theorem check_args_eq_none_of_length_le (start : Nat) (v : RValidator)
    (vs : List RValidator) (f : List PyVal → PyVal) (args : List PyVal)
    (h : args.length ≤ start) :
    check_args start (v :: vs) f args = Option.none := by
  have hx : args[start]? = Option.none := List.getElem?_eq_none h
  simp [check_args, runChecks, hx]

/-- C9 counterexample: the claim says a call supplying at most `start`
positional arguments raises IndexError and never delegates; but the wrapper
decoration returns is the preserve_signature shim, which first binds the call
against the original signature.  A function with the default x=5, decorated
with function_args(int), called with zero positional arguments (zero is at
most start = 0), binds x to 5, passes the bound tuple through the check loop
without any IndexError, and delegates, returning 5. -/
theorem C9_zero_arguments_still_delegate :
    function_args [TypeSpec.ty PyType.int] =
      some { start := 0, validators := [RValidator.typeV PyType.int] } ∧
    callDecorated
        { fname := "f", doc := Option.none,
          params := [{ pname := "x", default := some (PyVal.int 5) }] }
        { start := 0, validators := [RValidator.typeV PyType.int] }
        (fun xs => xs.headD PyVal.none) [] = some (PyVal.int 5) ∧
    ([] : List PyVal).length ≤ 0 :=
  ⟨rfl, rfl, by decide⟩

/-- C9 amended: what the check loop indexes is the bound argument tuple the
signature shim produces (supplied positional arguments plus defaults), not
the raw positional argument count of the call.  For every wrapper built from
a non-empty specification list, whenever the shim exists and binding yields a
tuple with at most `start` entries, the call raises IndexError inside the
check loop before the original callable is invoked; delegation therefore
only happens when the bound tuple has more than `start` entries. -/
theorem C9_short_bound_tuple_raises_index_error (f shim : PyFunc) (start : Nat)
    (v : RValidator) (vs : List RValidator) (impl : List PyVal → PyVal)
    (args bound : List PyVal)
    (hp : preserve_signature f = some shim)
    (hb : bindCall shim.params args = some bound)
    (h : bound.length ≤ start) :
    callDecorated f { start := start, validators := v :: vs } impl args =
      Option.none := by
  unfold callDecorated
  rw [hp, Option.some_bind, hb, Option.some_bind]
  exact check_args_eq_none_of_length_le start v vs impl bound h

/-- Witness for C9 amended: a method of one parameter (the receiver only),
decorated with method_args(int), called on the receiver alone: the bound
tuple has one entry, at most start = 1, and the call raises IndexError
instead of delegating. -/
theorem C9_short_bound_tuple_raises_index_error_witness :
    preserve_signature
        { fname := "m", doc := Option.none,
          params := [{ pname := "self", default := Option.none }] } =
      some { fname := "m", doc := Option.none,
             params := [{ pname := "self", default := Option.none }] } ∧
    bindCall [{ pname := "self", default := Option.none }] [PyVal.int 0] =
      some [PyVal.int 0] ∧
    [PyVal.int 0].length ≤ 1 ∧
    callDecorated
        { fname := "m", doc := Option.none,
          params := [{ pname := "self", default := Option.none }] }
        { start := 1, validators := [RValidator.typeV PyType.int] }
        (fun _ => PyVal.none) [PyVal.int 0] = Option.none :=
  ⟨rfl, rfl, by decide,
   C9_short_bound_tuple_raises_index_error
     { fname := "m", doc := Option.none,
       params := [{ pname := "self", default := Option.none }] }
     { fname := "m", doc := Option.none,
       params := [{ pname := "self", default := Option.none }] }
     1 (RValidator.typeV PyType.int) [] (fun _ => PyVal.none)
     [PyVal.int 0] [PyVal.int 0] rfl rfl (by decide)⟩

/-- C10: the empty tuple is an accepted specification: it resolves to
MultiTypeValidator (its all-classes guard passes vacuously), decoration with
it succeeds, and the resulting check rejects every value. -/
theorem C10_empty_tuple_resolves_and_rejects_everything :
    Validator.get (TypeSpec.tup []) = some (RValidator.multiType []) ∧
    (function_args [TypeSpec.tup []]).isSome = true ∧
    ∀ v : PyVal, (RValidator.multiType []).check v = false :=
  ⟨rfl, rfl, fun _ => rfl⟩
